import Mathlib

/-!
Shallow embedding of the structured-filter subsystem of tone-labs/dewey
(package filter): the typed field filter builders (string, bool, time) with
injected combinators from builders.go, and the evaluator
(ApplyStructuredFilters, buildPredicate, toString) together with the data
types (Filter, FilterGroup, Operator, Config, Combinators, PredicateBuilder)
from the package sources.

Modelling conventions:
  - The generic predicate type parameter P of the Go code stays a type
    parameter here; the caller-supplied atomic predicate constructors
    (StringPredicates, BoolPredicates, TimePredicates) and the Combinators
    are records of functions, exactly as in Go.
  - Go dynamic values (the any type) are the inductive GoValue; a Go type
    assertion such as value.(string) is modelled in Except: a failed
    assertion (a Go panic) is Except.error, carrying a GoError.
  - Go variadic predicate arguments become List arguments.
  - time.Time is the abstract GoTime; the standard-library parsers
    time.Parse(time.RFC3339, s) and time.Parse("2006-01-02", s) are external
    collaborators, passed in as the TimeParsers record of partial parsing
    functions, mirroring how the ORM predicate functions are passed in.
-/

namespace Dewey

/-- Abstract model of the Go standard-library time.Time value. The filter
core never inspects a timestamp; it only passes timestamps to the
caller-supplied predicates, so any representation with a distinguished zero
value is faithful. -/
structure GoTime where
  sec : Int
  nsec : Int
deriving DecidableEq, Repr

/-- The zero value time.Time\x7b\x7d of Go. -/
def zeroTime : GoTime := ⟨0, 0⟩

/-- A Go panic raised by the filter core: the only panics the builders can
raise are failed dynamic type assertions such as value.(string). -/
inductive GoError where
  | typeMismatch (expected : String)
deriving DecidableEq, Repr

/-- A dynamically typed Go value (the any type) as it reaches the filter
boundary: a string, a bool, a time.Time, a slice of values, nil, or a value
of any other type (tagged only with the name of that type, which the core
never inspects beyond failing assertions on it). -/
inductive GoValue where
  | str (s : String)
  | bool (b : Bool)
  | time (t : GoTime)
  | list (vs : List GoValue)
  | nil
  | other (typeName : String)

/-- True exactly when the dynamic value is a Go string. -/
def isStringValue : GoValue → Bool
  | .str _ => true
  | _ => false

/-- True exactly when the dynamic value is a Go bool. -/
def isBoolValue : GoValue → Bool
  | .bool _ => true
  | _ => false

/-- Combinators from filter.go: the caller-supplied And/Or functions over
variadic predicate lists. -/
structure Combinators (P : Type) where
  Or : List P → P
  And : List P → P

/-- Config from filter.go: the caller-supplied Where function applying a
predicate to a query. -/
structure Config (Q P : Type) where
  Where : Q → P → Q

/-- PredicateBuilder from filter.go: ID membership plus And/Or combinators. -/
structure PredicateBuilder (P : Type) where
  IDIn : List GoValue → P
  Or : List P → P
  And : List P → P

/-- StringPredicates from builders.go: the caller-supplied atomic predicate
constructors for one string field. The nullary Go functions IsNil/IsNotNil
are modelled as the predicate values they return. -/
structure StringPredicates (P : Type) where
  Eq : String → P
  Ne : String → P
  Gt : String → P
  Gte : String → P
  Lt : String → P
  Lte : String → P
  In : List String → P
  Nin : List String → P
  Contains : String → P
  StartsWith : String → P
  EndsWith : String → P
  IsNil : P
  IsNotNil : P

/-- BoolPredicates from builders.go (combinator variant): atomic equality
constructors for one boolean field. -/
structure BoolPredicates (P : Type) where
  Eq : Bool → P
  Ne : Bool → P

/-- TimePredicates from builders.go: atomic predicate constructors for one
time field. -/
structure TimePredicates (P : Type) where
  Eq : GoTime → P
  Ne : GoTime → P
  Gt : GoTime → P
  Gte : GoTime → P
  Lt : GoTime → P
  Lte : GoTime → P
  In : List GoTime → P
  Nin : List GoTime → P
  IsNil : P
  IsNotNil : P

/-- FieldFilterBuilder interface from types.go: the uniform 13-operator
surface. Every method returns in Except because a concrete implementation
may panic on a failed type assertion. -/
structure FieldFilterBuilder (P : Type) where
  Eq : GoValue → Except GoError P
  Ne : GoValue → Except GoError P
  Gt : GoValue → Except GoError P
  Gte : GoValue → Except GoError P
  Lt : GoValue → Except GoError P
  Lte : GoValue → Except GoError P
  In : List GoValue → Except GoError P
  Nin : List GoValue → Except GoError P
  Contains : String → Except GoError P
  StartsWith : String → Except GoError P
  EndsWith : String → Except GoError P
  IsNull : Except GoError P
  IsNotNull : Except GoError P

/-- The Go type assertion value.(string): the string on success, a panic
(typeMismatch) on any other dynamic type. -/
def coerceString : GoValue → Except GoError String
  | .str s => .ok s
  | _ => .error (.typeMismatch "string")

/-- Elementwise value.(string) over a Go slice, panicking at the first
non-string element, as in the In/Nin loops of StringFilterBuilder. -/
def coerceStrings : List GoValue → Except GoError (List String)
  | [] => .ok []
  | v :: rest =>
    match coerceString v with
    | .error e => .error e
    | .ok s =>
      match coerceStrings rest with
      | .error e => .error e
      | .ok ss => .ok (s :: ss)

/-- StringFilterBuilder with injected combinators, from builders.go
(newStringFilterWithCombinators and the method set at lines 507 to 575 of
the combinator variant): scalar operators assert value.(string) and
delegate; In/Nin coerce elementwise; Contains/StartsWith/EndsWith take the
string directly; IsNull/IsNotNull delegate to the nil-check atoms when
nullable and otherwise synthesize And(Eq(""), Ne("")) and
Or(Eq(""), Ne("")) through the combinators. -/
def stringFilterBuilder {P : Type} (pb : StringPredicates P)
    (cb : Combinators P) (nullable : Bool) : FieldFilterBuilder P where
  Eq := fun v => (coerceString v).map pb.Eq
  Ne := fun v => (coerceString v).map pb.Ne
  Gt := fun v => (coerceString v).map pb.Gt
  Gte := fun v => (coerceString v).map pb.Gte
  Lt := fun v => (coerceString v).map pb.Lt
  Lte := fun v => (coerceString v).map pb.Lte
  In := fun vs => (coerceStrings vs).map pb.In
  Nin := fun vs => (coerceStrings vs).map pb.Nin
  Contains := fun s => .ok (pb.Contains s)
  StartsWith := fun s => .ok (pb.StartsWith s)
  EndsWith := fun s => .ok (pb.EndsWith s)
  IsNull :=
    if nullable then .ok pb.IsNil
    else .ok (cb.And [pb.Eq "", pb.Ne ""])
  IsNotNull :=
    if nullable then .ok pb.IsNotNil
    else .ok (cb.Or [pb.Eq "", pb.Ne ""])

/-- The flag-accumulating loop of BoolFilterBuilder.In/Nin: walks the slice,
asserting v.(bool) on each element (panicking on non-bool), recording
whether true and whether false occur. -/
def boolScanFlags : List GoValue → Bool → Bool → Except GoError (Bool × Bool)
  | [], hasTrue, hasFalse => .ok (hasTrue, hasFalse)
  | v :: rest, hasTrue, hasFalse =>
    match v with
    | .bool true => boolScanFlags rest true hasFalse
    | .bool false => boolScanFlags rest hasTrue true
    | _ => .error (.typeMismatch "bool")

/-- BoolFilterBuilder with injected combinators, from builders.go lines 606
to 702 of the combinator variant: comparisons degrade to equality, In/Nin
classify the slice by presence of true and false, string operators and the
null checks synthesize the tautology Or(Eq(true), Eq(false)) or the
contradiction And(Eq(true), Eq(false)). -/
def boolFilterBuilder {P : Type} (pb : BoolPredicates P)
    (cb : Combinators P) : FieldFilterBuilder P where
  Eq := fun v =>
    match v with
    | .bool b => .ok (pb.Eq b)
    | _ => .error (.typeMismatch "bool")
  Ne := fun v =>
    match v with
    | .bool b => .ok (pb.Ne b)
    | _ => .error (.typeMismatch "bool")
  Gt := fun v =>
    match v with
    | .bool b => .ok (pb.Eq b)
    | _ => .error (.typeMismatch "bool")
  Gte := fun v =>
    match v with
    | .bool b => .ok (pb.Eq b)
    | _ => .error (.typeMismatch "bool")
  Lt := fun v =>
    match v with
    | .bool b => .ok (pb.Eq b)
    | _ => .error (.typeMismatch "bool")
  Lte := fun v =>
    match v with
    | .bool b => .ok (pb.Eq b)
    | _ => .error (.typeMismatch "bool")
  In := fun values =>
    if values.isEmpty then .ok (cb.And [pb.Eq true, pb.Eq false])
    else
      match boolScanFlags values false false with
      | .error e => .error e
      | .ok (hasTrue, hasFalse) =>
        if hasTrue && hasFalse then .ok (cb.Or [pb.Eq true, pb.Eq false])
        else if hasTrue then .ok (pb.Eq true)
        else .ok (pb.Eq false)
  Nin := fun values =>
    if values.isEmpty then .ok (cb.Or [pb.Eq true, pb.Eq false])
    else
      match boolScanFlags values false false with
      | .error e => .error e
      | .ok (hasTrue, hasFalse) =>
        if hasTrue && hasFalse then .ok (cb.And [pb.Eq true, pb.Eq false])
        else if hasTrue then .ok (pb.Eq false)
        else .ok (pb.Eq true)
  Contains := fun _ => .ok (cb.Or [pb.Eq true, pb.Eq false])
  StartsWith := fun _ => .ok (cb.Or [pb.Eq true, pb.Eq false])
  EndsWith := fun _ => .ok (cb.Or [pb.Eq true, pb.Eq false])
  IsNull := .ok (cb.And [pb.Eq true, pb.Eq false])
  IsNotNull := .ok (cb.Or [pb.Eq true, pb.Eq false])

/-- The two standard-library time parsers used by parseTimeValue, passed in
as external collaborators: time.Parse(time.RFC3339, s) and
time.Parse("2006-01-02", s), each modelled as a partial function returning
some parsed timestamp or none on a parse error. -/
structure TimeParsers where
  rfc3339 : String → Option GoTime
  dateOnly : String → Option GoTime

/-- parseTimeValue from builders.go lines 747 to 764: a native time.Time
passes through unchanged; a string is tried first as RFC3339, then as a
YYYY-MM-DD date; an unparseable string or a value of any other type yields
the zero time.Time together with an error. The pair models the Go return
(time.Time, error), the Option String being the error. -/
def parseTimeValue (tp : TimeParsers) : GoValue → GoTime × Option String
  | .time t => (t, none)
  | .str s =>
    match tp.rfc3339 s with
    | some t => (t, none)
    | none =>
      match tp.dateOnly s with
      | some t => (t, none)
      | none => (zeroTime, some ("unable to parse time value: " ++ s))
  | _ => (zeroTime, some "unsupported time value type")

/-- TimeFilterBuilder with injected combinators, from builders.go lines 766
to 845 of the combinator variant: every comparison coerces through
parseTimeValue, discarding the error component exactly as the Go statement
t, _ := parseTimeValue(value) does; In/Nin coerce elementwise the same way;
string operators return the tautology Gte(zeroTime); IsNull/IsNotNull
delegate to nil-check atoms when nullable and otherwise synthesize
And/Or of Eq(zeroTime) and Ne(zeroTime) through the combinators. -/
def timeFilterBuilder {P : Type} (tp : TimeParsers) (pb : TimePredicates P)
    (cb : Combinators P) (nullable : Bool) : FieldFilterBuilder P where
  Eq := fun v => .ok (pb.Eq (parseTimeValue tp v).1)
  Ne := fun v => .ok (pb.Ne (parseTimeValue tp v).1)
  Gt := fun v => .ok (pb.Gt (parseTimeValue tp v).1)
  Gte := fun v => .ok (pb.Gte (parseTimeValue tp v).1)
  Lt := fun v => .ok (pb.Lt (parseTimeValue tp v).1)
  Lte := fun v => .ok (pb.Lte (parseTimeValue tp v).1)
  In := fun vs => .ok (pb.In (vs.map (fun v => (parseTimeValue tp v).1)))
  Nin := fun vs => .ok (pb.Nin (vs.map (fun v => (parseTimeValue tp v).1)))
  Contains := fun _ => .ok (pb.Gte zeroTime)
  StartsWith := fun _ => .ok (pb.Gte zeroTime)
  EndsWith := fun _ => .ok (pb.Gte zeroTime)
  IsNull :=
    if nullable then .ok pb.IsNil
    else .ok (cb.And [pb.Eq zeroTime, pb.Ne zeroTime])
  IsNotNull :=
    if nullable then .ok pb.IsNotNil
    else .ok (cb.Or [pb.Eq zeroTime, pb.Ne zeroTime])

/-- Filter from types.go: one leaf condition. The Go Operator type is a
plain string, kept as String here. -/
structure Filter where
  field : String
  operator : String
  value : GoValue

/-- FilterGroup from types.go: an ordered list of filters plus the logic
tag. -/
structure FilterGroup where
  filters : List Filter
  logic : String

/-- toString from types.go lines 679 to 687: a nil value and every
non-string value become the empty string; a string passes through. -/
def toString : GoValue → String
  | .nil => ""
  | .str s => s
  | _ => ""

/-- The slice coercion inside the in and nin dispatch arms of
buildPredicate: a value that already is a Go slice is used as is, any other
value is wrapped as a one-element slice. -/
def asList : GoValue → List GoValue
  | .list vs => vs
  | v => [v]

/-- buildPredicate from types.go lines 633 to 676: the 13-way operator
dispatch (the Go switch over distinct string constants, rendered as the
equivalent chain of equality tests), defaulting to Eq for an unrecognized
operator tag. -/
def buildPredicate {P : Type} (builder : FieldFilterBuilder P) (f : Filter) :
    Except GoError P :=
  if f.operator = "eq" then builder.Eq f.value
  else if f.operator = "ne" then builder.Ne f.value
  else if f.operator = "gt" then builder.Gt f.value
  else if f.operator = "gte" then builder.Gte f.value
  else if f.operator = "lt" then builder.Lt f.value
  else if f.operator = "lte" then builder.Lte f.value
  else if f.operator = "in" then builder.In (asList f.value)
  else if f.operator = "nin" then builder.Nin (asList f.value)
  else if f.operator = "contains" then builder.Contains (toString f.value)
  else if f.operator = "startswith" then builder.StartsWith (toString f.value)
  else if f.operator = "endswith" then builder.EndsWith (toString f.value)
  else if f.operator = "null" then builder.IsNull
  else if f.operator = "nnull" then builder.IsNotNull
  else builder.Eq f.value

/-- The predicate-collecting loop of ApplyStructuredFilters: for each filter
in order, look the field up in the builder map (modelled as a partial
function, exactly the observable behaviour of a Go map), skip the filter
when absent, otherwise build its predicate and append it; a panic inside
buildPredicate aborts the loop, as a Go panic would. -/
def buildPredicates {P : Type}
    (fieldBuilders : String → Option (FieldFilterBuilder P)) :
    List Filter → Except GoError (List P)
  | [] => .ok []
  | f :: rest =>
    match fieldBuilders f.field with
    | none => buildPredicates fieldBuilders rest
    | some b =>
      match buildPredicate b f with
      | .error e => .error e
      | .ok p =>
        match buildPredicates fieldBuilders rest with
        | .error e => .error e
        | .ok ps => .ok (p :: ps)

/-- ApplyStructuredFilters from types.go lines 588 to 630: an empty group
leaves the query untouched; otherwise predicates are collected with
unknown-field skips; an empty result list leaves the query untouched; a
single predicate is passed to Where unmodified; two or more predicates are
combined with Or exactly when the logic tag is the string or, with And
otherwise, and the combination is passed to Where. -/
def ApplyStructuredFilters {Q P : Type} (query : Q) (cfg : Config Q P)
    (group : FilterGroup)
    (fieldBuilders : String → Option (FieldFilterBuilder P))
    (predicates : PredicateBuilder P) : Except GoError Q :=
  if group.filters.isEmpty then .ok query
  else
    match buildPredicates fieldBuilders group.filters with
    | .error e => .error e
    | .ok [] => .ok query
    | .ok [p] => .ok (cfg.Where query p)
    | .ok (p1 :: p2 :: rest) =>
      if group.logic = "or" then
        .ok (cfg.Where query (predicates.Or (p1 :: p2 :: rest)))
      else
        .ok (cfg.Where query (predicates.And (p1 :: p2 :: rest)))

/-- True exactly when the computation returned a value rather than
panicking. -/
def succeeds {α : Type} : Except GoError α → Bool
  | .ok _ => true
  | .error _ => false

/-- Concrete combinators used to evaluate the theorems on closed inputs,
mirroring the mock predicate strings of the package test suite. -/
def mockComb : Combinators String where
  Or := fun ps => "or(" ++ String.intercalate ", " ps ++ ")"
  And := fun ps => "and(" ++ String.intercalate ", " ps ++ ")"

/-- Concrete string-field predicate constructors over String predicates. -/
def mockStringPreds : StringPredicates String where
  Eq := fun s => "email = " ++ s
  Ne := fun s => "email != " ++ s
  Gt := fun s => "email > " ++ s
  Gte := fun s => "email >= " ++ s
  Lt := fun s => "email < " ++ s
  Lte := fun s => "email <= " ++ s
  In := fun ss => "email in (" ++ String.intercalate ", " ss ++ ")"
  Nin := fun ss => "email not in (" ++ String.intercalate ", " ss ++ ")"
  Contains := fun s => "email contains " ++ s
  StartsWith := fun s => "email startswith " ++ s
  EndsWith := fun s => "email endswith " ++ s
  IsNil := "email is nil"
  IsNotNil := "email is not nil"

/-- Concrete boolean-field predicate constructors over String predicates. -/
def mockBoolPreds : BoolPredicates String where
  Eq := fun b => "active = " ++ (if b then "true" else "false")
  Ne := fun b => "active != " ++ (if b then "true" else "false")

/-- Concrete time-field predicate constructors over String predicates. -/
def mockTimePreds : TimePredicates String where
  Eq := fun t => "created = " ++ ToString.toString t.sec
  Ne := fun t => "created != " ++ ToString.toString t.sec
  Gt := fun t => "created > " ++ ToString.toString t.sec
  Gte := fun t => "created >= " ++ ToString.toString t.sec
  Lt := fun t => "created < " ++ ToString.toString t.sec
  Lte := fun t => "created <= " ++ ToString.toString t.sec
  In := fun ts => "created in " ++ ToString.toString (ts.map GoTime.sec)
  Nin := fun ts => "created not in " ++ ToString.toString (ts.map GoTime.sec)
  IsNil := "created is nil"
  IsNotNil := "created is not nil"

/-- Concrete time parsers recognizing one RFC3339 literal and one date
literal, enough to evaluate the coercion path of the time builder on closed
inputs. -/
def mockParsers : TimeParsers where
  rfc3339 := fun s => if s = "2024-01-15T10:00:00Z" then some ⟨100, 0⟩ else none
  dateOnly := fun s => if s = "2024-01-15" then some ⟨200, 0⟩ else none

/-- Concrete Config whose Where records the predicate in the query string. -/
def mockCfg : Config String String where
  Where := fun q p => q ++ " WHERE " ++ p

/-- Concrete predicate builder for the evaluator. -/
def mockPredBuilder : PredicateBuilder String where
  IDIn := fun _ => "idin"
  Or := fun ps => "OR(" ++ String.intercalate ", " ps ++ ")"
  And := fun ps => "AND(" ++ String.intercalate ", " ps ++ ")"

/-- A second, observably different predicate builder, used to show that a
result does not depend on the combinators at all. -/
def mockPredBuilder2 : PredicateBuilder String where
  IDIn := fun _ => "idin2"
  Or := fun ps => "OR2(" ++ String.intercalate ", " ps ++ ")"
  And := fun ps => "AND2(" ++ String.intercalate ", " ps ++ ")"

/-- Concrete registry holding exactly one field named email, backed by the
non-nullable string builder. -/
def mockRegistry : String → Option (FieldFilterBuilder String) :=
  fun name =>
    if name = "email" then some (stringFilterBuilder mockStringPreds mockComb false)
    else none

/-- The flag loop of BoolFilterBuilder.In/Nin on a slice of genuine
booleans: it never panics, and it returns exactly the presence flags of
true and false, accumulated over the initial flags. -/
theorem boolScanFlags_map (vs : List Bool) (ht hf : Bool) :
    boolScanFlags (vs.map GoValue.bool) ht hf =
      .ok (ht || vs.contains true, hf || vs.contains false) := by
  induction vs generalizing ht hf with
  | nil => simp [boolScanFlags]
  | cons b rest ih =>
    cases b <;> simp [boolScanFlags, ih, List.contains_cons]

/-- C1: for a non-nullable string builder, IsNull is exactly
And(Eq(""), Ne("")) and IsNotNull is exactly Or(Eq(""), Ne("")), built from
the injected combinators and the atomic constructors at the empty-string
sentinel; for a nullable string builder they are exactly the caller-supplied
IsNil/IsNotNil atoms, unmodified, and in all four cases no error occurs. -/
theorem claim_C1 {P : Type} (pb : StringPredicates P) (cb : Combinators P) :
    (stringFilterBuilder pb cb false).IsNull =
        .ok (cb.And [pb.Eq "", pb.Ne ""]) ∧
    (stringFilterBuilder pb cb false).IsNotNull =
        .ok (cb.Or [pb.Eq "", pb.Ne ""]) ∧
    (stringFilterBuilder pb cb true).IsNull = .ok pb.IsNil ∧
    (stringFilterBuilder pb cb true).IsNotNull = .ok pb.IsNotNil :=
  ⟨rfl, rfl, rfl, rfl⟩

/-- C3: for a non-nullable time builder, IsNull is exactly
And(Eq(zeroTime), Ne(zeroTime)) and IsNotNull is exactly
Or(Eq(zeroTime), Ne(zeroTime)), built from the injected combinators and the
atomic constructors at the zero timestamp; for a nullable time builder they
are exactly the caller-supplied IsNil/IsNotNil atoms, unmodified. -/
theorem claim_C3 {P : Type} (tp : TimeParsers) (pb : TimePredicates P)
    (cb : Combinators P) :
    (timeFilterBuilder tp pb cb false).IsNull =
        .ok (cb.And [pb.Eq zeroTime, pb.Ne zeroTime]) ∧
    (timeFilterBuilder tp pb cb false).IsNotNull =
        .ok (cb.Or [pb.Eq zeroTime, pb.Ne zeroTime]) ∧
    (timeFilterBuilder tp pb cb true).IsNull = .ok pb.IsNil ∧
    (timeFilterBuilder tp pb cb true).IsNotNull = .ok pb.IsNotNil :=
  ⟨rfl, rfl, rfl, rfl⟩

/-- C4: for a list of genuine boolean values, the boolean builder In and Nin
results depend only on which of true and false occur in the list: In gives
the tautology Or(Eq(true), Eq(false)) when both occur, Eq(true) when only
true occurs, Eq(false) when only false occurs, and the contradiction
And(Eq(true), Eq(false)) on the empty list; Nin gives the tautology on the
empty list, the contradiction when both occur, Eq(false) when only true
occurs, and Eq(true) when only false occurs. -/
theorem claim_C4 {P : Type} (pb : BoolPredicates P) (cb : Combinators P)
    (vs : List Bool) :
    (boolFilterBuilder pb cb).In (vs.map GoValue.bool) =
      .ok (if vs.isEmpty then cb.And [pb.Eq true, pb.Eq false]
           else if vs.contains true && vs.contains false then
             cb.Or [pb.Eq true, pb.Eq false]
           else if vs.contains true then pb.Eq true
           else pb.Eq false) ∧
    (boolFilterBuilder pb cb).Nin (vs.map GoValue.bool) =
      .ok (if vs.isEmpty then cb.Or [pb.Eq true, pb.Eq false]
           else if vs.contains true && vs.contains false then
             cb.And [pb.Eq true, pb.Eq false]
           else if vs.contains true then pb.Eq false
           else pb.Eq true) := by
  cases vs with
  | nil => exact ⟨rfl, rfl⟩
  | cons b rest =>
    have hscan := boolScanFlags_map (b :: rest) false false
    simp only [List.map_cons] at hscan
    constructor <;>
      simp only [boolFilterBuilder, List.map_cons, List.isEmpty_cons,
        Bool.false_eq_true, if_false, hscan, Bool.false_or] <;>
      simp [apply_ite Except.ok]

/-- Mapping a function over a computation does not change whether it
succeeded. -/
theorem succeeds_map {α β : Type} (e : Except GoError α) (f : α → β) :
    succeeds (e.map f) = succeeds e := by
  cases e <;> rfl

/-- The value.(string) assertion succeeds exactly on strings. -/
theorem coerceString_isOk (v : GoValue) :
    succeeds (coerceString v) = isStringValue v := by
  cases v <;> rfl

/-- The value.(string) assertion on a non-string panics with the string
type-mismatch error. -/
theorem coerceString_fail (v : GoValue) (h : isStringValue v = false) :
    coerceString v = .error (.typeMismatch "string") := by
  cases v <;> simp_all [isStringValue, coerceString]

/-- Elementwise string coercion succeeds exactly when every element is a
string. -/
theorem coerceStrings_isOk (vs : List GoValue) :
    succeeds (coerceStrings vs) = vs.all isStringValue := by
  induction vs with
  | nil => rfl
  | cons v rest ih =>
    cases hv : coerceString v with
    | error e =>
      have hne : isStringValue v = false := by
        cases v <;> simp_all [coerceString, isStringValue]
      simp [coerceStrings, hv, succeeds, List.all_cons, hne]
    | ok s =>
      have hstr : isStringValue v = true := by
        cases v <;> simp_all [coerceString, isStringValue]
      simp only [coerceStrings, hv, List.all_cons, hstr, Bool.true_and, ← ih]
      cases coerceStrings rest <;> rfl

/-- Elementwise string coercion of a slice of genuine strings returns the
strings unchanged. -/
theorem coerceStrings_map_str (ss : List String) :
    coerceStrings (ss.map GoValue.str) = .ok ss := by
  induction ss with
  | nil => rfl
  | cons s rest ih => simp [coerceStrings, coerceString, ih]

/-- C6: on the string builder, the six scalar operators succeed exactly on
string values and then delegate the string unchanged to the matching atomic
constructor, panicking with a TypeMismatch otherwise; In and Nin succeed
exactly when every element of the slice is a string and then delegate the
string list unchanged, panicking at a non-string element otherwise. -/
theorem claim_C6 {P : Type} (pb : StringPredicates P) (cb : Combinators P)
    (nb : Bool) (v : GoValue) (s : String) (vs : List GoValue)
    (ss : List String) :
    (succeeds ((stringFilterBuilder pb cb nb).Eq v) = isStringValue v) ∧
    ((stringFilterBuilder pb cb nb).Eq (GoValue.str s) = .ok (pb.Eq s)) ∧
    (isStringValue v = false →
      (stringFilterBuilder pb cb nb).Eq v =
        .error (.typeMismatch "string")) ∧
    (succeeds ((stringFilterBuilder pb cb nb).Ne v) = isStringValue v) ∧
    ((stringFilterBuilder pb cb nb).Ne (GoValue.str s) = .ok (pb.Ne s)) ∧
    (isStringValue v = false →
      (stringFilterBuilder pb cb nb).Ne v =
        .error (.typeMismatch "string")) ∧
    (succeeds ((stringFilterBuilder pb cb nb).Gt v) = isStringValue v) ∧
    ((stringFilterBuilder pb cb nb).Gt (GoValue.str s) = .ok (pb.Gt s)) ∧
    (isStringValue v = false →
      (stringFilterBuilder pb cb nb).Gt v =
        .error (.typeMismatch "string")) ∧
    (succeeds ((stringFilterBuilder pb cb nb).Gte v) = isStringValue v) ∧
    ((stringFilterBuilder pb cb nb).Gte (GoValue.str s) = .ok (pb.Gte s)) ∧
    (isStringValue v = false →
      (stringFilterBuilder pb cb nb).Gte v =
        .error (.typeMismatch "string")) ∧
    (succeeds ((stringFilterBuilder pb cb nb).Lt v) = isStringValue v) ∧
    ((stringFilterBuilder pb cb nb).Lt (GoValue.str s) = .ok (pb.Lt s)) ∧
    (isStringValue v = false →
      (stringFilterBuilder pb cb nb).Lt v =
        .error (.typeMismatch "string")) ∧
    (succeeds ((stringFilterBuilder pb cb nb).Lte v) = isStringValue v) ∧
    ((stringFilterBuilder pb cb nb).Lte (GoValue.str s) = .ok (pb.Lte s)) ∧
    (isStringValue v = false →
      (stringFilterBuilder pb cb nb).Lte v =
        .error (.typeMismatch "string")) ∧
    (succeeds ((stringFilterBuilder pb cb nb).In vs) =
      vs.all isStringValue) ∧
    ((stringFilterBuilder pb cb nb).In (ss.map GoValue.str) =
      .ok (pb.In ss)) ∧
    (succeeds ((stringFilterBuilder pb cb nb).Nin vs) =
      vs.all isStringValue) ∧
    ((stringFilterBuilder pb cb nb).Nin (ss.map GoValue.str) =
      .ok (pb.Nin ss)) := by
  repeat' apply And.intro
  all_goals
    first
      | rfl
      | (intro h
         simp [stringFilterBuilder, coerceString_fail v h, Except.map])
      | (simp [stringFilterBuilder, succeeds_map, coerceString_isOk,
          coerceStrings_isOk]
         done)
      | simp [stringFilterBuilder, coerceStrings_map_str, Except.map]

/-- C2: the time coercion passes a native timestamp through unchanged, tries
a string first as RFC3339 and then as a YYYY-MM-DD date, and degrades an
unparseable string or a value of any other type to the zero timestamp with
an internal error; every comparison method of the time builder then invokes
its atomic constructor on the coerced timestamp (elementwise for In and
Nin) and always returns ok, so no parse error ever reaches the caller. -/
theorem claim_C2 {P : Type} (tp : TimeParsers) (pb : TimePredicates P)
    (cb : Combinators P) (nb : Bool) (t : GoTime) (s : String) (b : Bool)
    (v : GoValue) (vs : List GoValue) :
    (parseTimeValue tp (GoValue.time t) = (t, none)) ∧
    (tp.rfc3339 s = some t → parseTimeValue tp (GoValue.str s) = (t, none)) ∧
    (tp.rfc3339 s = none → tp.dateOnly s = some t →
      parseTimeValue tp (GoValue.str s) = (t, none)) ∧
    (tp.rfc3339 s = none → tp.dateOnly s = none →
      parseTimeValue tp (GoValue.str s) =
        (zeroTime, some ("unable to parse time value: " ++ s))) ∧
    (parseTimeValue tp (GoValue.bool b) =
      (zeroTime, some "unsupported time value type")) ∧
    (parseTimeValue tp GoValue.nil =
      (zeroTime, some "unsupported time value type")) ∧
    ((timeFilterBuilder tp pb cb nb).Eq v =
      .ok (pb.Eq (parseTimeValue tp v).1)) ∧
    ((timeFilterBuilder tp pb cb nb).Ne v =
      .ok (pb.Ne (parseTimeValue tp v).1)) ∧
    ((timeFilterBuilder tp pb cb nb).Gt v =
      .ok (pb.Gt (parseTimeValue tp v).1)) ∧
    ((timeFilterBuilder tp pb cb nb).Gte v =
      .ok (pb.Gte (parseTimeValue tp v).1)) ∧
    ((timeFilterBuilder tp pb cb nb).Lt v =
      .ok (pb.Lt (parseTimeValue tp v).1)) ∧
    ((timeFilterBuilder tp pb cb nb).Lte v =
      .ok (pb.Lte (parseTimeValue tp v).1)) ∧
    ((timeFilterBuilder tp pb cb nb).In vs =
      .ok (pb.In (vs.map (fun x => (parseTimeValue tp x).1)))) ∧
    ((timeFilterBuilder tp pb cb nb).Nin vs =
      .ok (pb.Nin (vs.map (fun x => (parseTimeValue tp x).1)))) ∧
    (tp.rfc3339 s = none → tp.dateOnly s = none →
      (timeFilterBuilder tp pb cb nb).Eq (GoValue.str s) =
        .ok (pb.Eq zeroTime)) ∧
    ((timeFilterBuilder tp pb cb nb).Eq (GoValue.bool b) =
      .ok (pb.Eq zeroTime)) := by
  repeat' apply And.intro
  all_goals
    first
      | rfl
      | (intro h1 h2
         simp [timeFilterBuilder, parseTimeValue, h1, h2])
      | (intro h1
         simp [parseTimeValue, h1])

/-- Closed-form characterization of ApplyStructuredFilters through the
predicate-collecting loop: the empty-group early return coincides with the
empty-predicate-list return, so the two arms merge. -/
theorem applyStructuredFilters_spec {Q P : Type} (q : Q) (cfg : Config Q P)
    (group : FilterGroup)
    (reg : String → Option (FieldFilterBuilder P))
    (pb : PredicateBuilder P) :
    ApplyStructuredFilters q cfg group reg pb =
      match buildPredicates reg group.filters with
      | .error e => if group.filters.isEmpty then .ok q else .error e
      | .ok [] => .ok q
      | .ok [p] => .ok (cfg.Where q p)
      | .ok (p1 :: p2 :: rest) =>
        if group.logic = "or" then .ok (cfg.Where q (pb.Or (p1 :: p2 :: rest)))
        else .ok (cfg.Where q (pb.And (p1 :: p2 :: rest))) := by
  cases hf : group.filters with
  | nil => simp [ApplyStructuredFilters, hf, buildPredicates]
  | cons f rest =>
    simp only [ApplyStructuredFilters, hf, List.isEmpty_cons,
      Bool.false_eq_true, if_false]

/-- Dropping the filters whose field is absent from the registry does not
change the collected predicate list. -/
theorem buildPredicates_filter_known {P : Type}
    (reg : String → Option (FieldFilterBuilder P)) (fs : List Filter) :
    buildPredicates reg (fs.filter fun f => (reg f.field).isSome) =
      buildPredicates reg fs := by
  induction fs with
  | nil => rfl
  | cons f rest ih =>
    cases h : reg f.field with
    | none => simp [List.filter_cons, h, buildPredicates, ih]
    | some b => simp [List.filter_cons, h, buildPredicates, ih]

/-- If every filter names an unknown field, the collecting loop produces the
empty predicate list without error. -/
theorem buildPredicates_of_all_unknown {P : Type}
    (reg : String → Option (FieldFilterBuilder P)) (fs : List Filter)
    (h : fs.all (fun f => (reg f.field).isNone) = true) :
    buildPredicates reg fs = .ok [] := by
  induction fs with
  | nil => rfl
  | cons f rest ih =>
    simp only [List.all_cons, Bool.and_eq_true] at h
    have h1 : reg f.field = none := Option.isNone_iff_eq_none.mp h.1
    simp [buildPredicates, h1, ih h.2]

/-- C7: evaluation skips filters on unregistered fields silently, so a group
gives exactly the same result as the group with those filters deleted, for
every query, registry and predicate builder. -/
theorem claim_C7 {Q P : Type} (q : Q) (cfg : Config Q P) (fs : List Filter)
    (lg : String) (reg : String → Option (FieldFilterBuilder P))
    (pb : PredicateBuilder P) :
    ApplyStructuredFilters q cfg ⟨fs, lg⟩ reg pb =
      ApplyStructuredFilters q cfg
        ⟨fs.filter fun f => (reg f.field).isSome, lg⟩ reg pb := by
  rw [applyStructuredFilters_spec, applyStructuredFilters_spec,
    buildPredicates_filter_known]
  cases hb : buildPredicates reg fs with
  | error e =>
    have h1 : fs.isEmpty = false := by
      cases fs with
      | nil => simp [buildPredicates] at hb
      | cons a l => rfl
    have h2 : (fs.filter fun f => (reg f.field).isSome).isEmpty = false := by
      cases hfl : fs.filter fun f => (reg f.field).isSome with
      | nil =>
        rw [← buildPredicates_filter_known, hfl] at hb
        simp [buildPredicates] at hb
      | cons a l => rfl
    simp [h1, h2]
  | ok ps =>
    cases ps with
    | nil => rfl
    | cons p1 t => cases t <;> rfl

/-- C8: a group with no filters, and a group all of whose filters name
fields absent from the registry, leave the query unchanged: the result is ok
of the original query for every Config, so Where is never invoked. -/
theorem claim_C8 {Q P : Type} (q : Q) (cfg : Config Q P)
    (reg : String → Option (FieldFilterBuilder P))
    (pb : PredicateBuilder P) (lg : String) (group : FilterGroup) :
    (ApplyStructuredFilters q cfg ⟨[], lg⟩ reg pb = .ok q) ∧
    (group.filters.all (fun f => (reg f.field).isNone) = true →
      ApplyStructuredFilters q cfg group reg pb = .ok q) := by
  constructor
  · rfl
  · intro h
    rw [applyStructuredFilters_spec,
      buildPredicates_of_all_unknown reg group.filters h]

/-- C5: when the collecting loop leaves exactly one predicate, evaluation
passes it to Where unmodified and the result does not depend on the
And/Or combinators at all; when it leaves two or more, they are combined
with Or exactly when the logic tag is the string or (case-sensitive), and
with And for every other logic value, the empty string included. -/
theorem claim_C5 {Q P : Type} (q : Q) (cfg : Config Q P)
    (group : FilterGroup) (reg : String → Option (FieldFilterBuilder P))
    (pb pb2 : PredicateBuilder P) (p : P) (ps : List P) :
    (buildPredicates reg group.filters = .ok [p] →
      ApplyStructuredFilters q cfg group reg pb = .ok (cfg.Where q p) ∧
      ApplyStructuredFilters q cfg group reg pb =
        ApplyStructuredFilters q cfg group reg pb2) ∧
    (buildPredicates reg group.filters = .ok ps → 2 ≤ ps.length →
      ApplyStructuredFilters q cfg group reg pb =
        .ok (cfg.Where q
          (if group.logic = "or" then pb.Or ps else pb.And ps))) := by
  constructor
  · intro h
    rw [applyStructuredFilters_spec q cfg group reg pb,
      applyStructuredFilters_spec q cfg group reg pb2, h]
    exact ⟨rfl, rfl⟩
  · intro h hlen
    rw [applyStructuredFilters_spec, h]
    cases ps with
    | nil => simp at hlen
    | cons p1 t =>
      cases t with
      | nil => simp at hlen
      | cons p2 rest =>
        by_cases hl : group.logic = "or" <;> simp [hl]

/-- The list of the 13 recognized operator tags of the dispatch table. -/
def recognizedOps : List String :=
  ["eq", "ne", "gt", "gte", "lt", "lte", "in", "nin",
   "contains", "startswith", "endswith", "null", "nnull"]

/-- C9: each of the 13 recognized operator tags dispatches 1:1 to the
corresponding builder method (with the slice coercion for in and nin and the
toString coercion for the three string operators), and any operator tag
outside the 13 falls back to invoking Eq on the filter value, raising no
error of its own. -/
theorem claim_C9 {P : Type} (B : FieldFilterBuilder P) (fld : String)
    (v : GoValue) (op : String) :
    (op ∉ recognizedOps → buildPredicate B ⟨fld, op, v⟩ = B.Eq v) ∧
    (buildPredicate B ⟨fld, "eq", v⟩ = B.Eq v) ∧
    (buildPredicate B ⟨fld, "ne", v⟩ = B.Ne v) ∧
    (buildPredicate B ⟨fld, "gt", v⟩ = B.Gt v) ∧
    (buildPredicate B ⟨fld, "gte", v⟩ = B.Gte v) ∧
    (buildPredicate B ⟨fld, "lt", v⟩ = B.Lt v) ∧
    (buildPredicate B ⟨fld, "lte", v⟩ = B.Lte v) ∧
    (buildPredicate B ⟨fld, "in", v⟩ = B.In (asList v)) ∧
    (buildPredicate B ⟨fld, "nin", v⟩ = B.Nin (asList v)) ∧
    (buildPredicate B ⟨fld, "contains", v⟩ = B.Contains (toString v)) ∧
    (buildPredicate B ⟨fld, "startswith", v⟩ = B.StartsWith (toString v)) ∧
    (buildPredicate B ⟨fld, "endswith", v⟩ = B.EndsWith (toString v)) ∧
    (buildPredicate B ⟨fld, "null", v⟩ = B.IsNull) ∧
    (buildPredicate B ⟨fld, "nnull", v⟩ = B.IsNotNull) := by
  repeat' apply And.intro
  all_goals
    first
      | rfl
      | (intro h
         simp only [recognizedOps, List.mem_cons, List.not_mem_nil,
           or_false, not_or] at h
         obtain ⟨h1, h2, h3, h4, h5, h6, h7, h8, h9, h10, h11, h12, h13⟩ := h
         simp [buildPredicate, h1, h2, h3, h4, h5, h6, h7, h8, h9, h10,
           h11, h12, h13])

/-- C10: for the three string-matching operators the dispatcher passes the
builder toString of the filter value, which is the value itself for a
string and the empty string for nil and every non-string type; on each of
the three concrete builder kinds these operator implementations always
return ok, so no type mismatch can arise from them. -/
theorem claim_C10 {P : Type} (B : FieldFilterBuilder P)
    (spb : StringPredicates P) (bpb : BoolPredicates P)
    (tpb : TimePredicates P) (cb : Combinators P) (tp : TimeParsers)
    (nb tnb : Bool) (v : GoValue) (s t fld : String) :
    (buildPredicate B ⟨fld, "contains", v⟩ = B.Contains (toString v)) ∧
    (buildPredicate B ⟨fld, "startswith", v⟩ = B.StartsWith (toString v)) ∧
    (buildPredicate B ⟨fld, "endswith", v⟩ = B.EndsWith (toString v)) ∧
    (toString (GoValue.str s) = s) ∧
    (toString GoValue.nil = "") ∧
    (isStringValue v = false → toString v = "") ∧
    (succeeds ((stringFilterBuilder spb cb nb).Contains t) = true) ∧
    (succeeds ((stringFilterBuilder spb cb nb).StartsWith t) = true) ∧
    (succeeds ((stringFilterBuilder spb cb nb).EndsWith t) = true) ∧
    (succeeds ((boolFilterBuilder bpb cb).Contains t) = true) ∧
    (succeeds ((boolFilterBuilder bpb cb).StartsWith t) = true) ∧
    (succeeds ((boolFilterBuilder bpb cb).EndsWith t) = true) ∧
    (succeeds ((timeFilterBuilder tp tpb cb tnb).Contains t) = true) ∧
    (succeeds ((timeFilterBuilder tp tpb cb tnb).StartsWith t) = true) ∧
    (succeeds ((timeFilterBuilder tp tpb cb tnb).EndsWith t) = true) := by
  repeat' apply And.intro
  all_goals
    first
      | rfl
      | (intro h
         cases v <;> simp_all [isStringValue, toString])

/-- Witness for C2 on closed inputs: the RFC3339 literal parses through the
first parser, the date literal through the second, the unparseable literal
degrades to the zero timestamp, and the builder still returns ok with the
atomic constructor applied at the zero timestamp. -/
theorem claim_C2_witness :
    parseTimeValue mockParsers (GoValue.str "2024-01-15T10:00:00Z") =
      (⟨100, 0⟩, none) ∧
    parseTimeValue mockParsers (GoValue.str "2024-01-15") =
      (⟨200, 0⟩, none) ∧
    parseTimeValue mockParsers (GoValue.str "not-a-date") =
      (zeroTime, some ("unable to parse time value: " ++ "not-a-date")) ∧
    (timeFilterBuilder mockParsers mockTimePreds mockComb false).Eq
        (GoValue.str "not-a-date") = .ok (mockTimePreds.Eq zeroTime) := by
  refine ⟨?_, ?_, ?_, ?_⟩
  · exact (claim_C2 mockParsers mockTimePreds mockComb false ⟨100, 0⟩
      "2024-01-15T10:00:00Z" true GoValue.nil []).2.1 (by rfl)
  · exact (claim_C2 mockParsers mockTimePreds mockComb false ⟨200, 0⟩
      "2024-01-15" true GoValue.nil []).2.2.1 (by rfl) (by rfl)
  · exact (claim_C2 mockParsers mockTimePreds mockComb false ⟨0, 0⟩
      "not-a-date" true GoValue.nil []).2.2.2.1 (by rfl) (by rfl)
  · exact (claim_C2 mockParsers mockTimePreds mockComb false ⟨0, 0⟩
      "not-a-date" true GoValue.nil
      []).2.2.2.2.2.2.2.2.2.2.2.2.2.2.1 (by rfl) (by rfl)

/-- Witness for C5 on closed inputs: with one surviving predicate the
evaluator returns it through Where with no combinator wrapper; with two it
combines with AND under the empty logic tag. -/
theorem claim_C5_witness :
    ApplyStructuredFilters "q" mockCfg
        ⟨[⟨"email", "eq", GoValue.str "a"⟩, ⟨"ghost", "eq", GoValue.str "b"⟩],
          ""⟩ mockRegistry mockPredBuilder =
      .ok "q WHERE email = a" ∧
    ApplyStructuredFilters "q" mockCfg
        ⟨[⟨"email", "eq", GoValue.str "a"⟩, ⟨"email", "ne", GoValue.str "b"⟩],
          ""⟩ mockRegistry mockPredBuilder =
      .ok "q WHERE AND(email = a, email != b)" := by
  constructor
  · exact (((claim_C5 "q" mockCfg
      ⟨[⟨"email", "eq", GoValue.str "a"⟩, ⟨"ghost", "eq", GoValue.str "b"⟩],
        ""⟩ mockRegistry mockPredBuilder mockPredBuilder2 "email = a"
      []).1 (by rfl)).1).trans (by rfl)
  · exact ((claim_C5 "q" mockCfg
      ⟨[⟨"email", "eq", GoValue.str "a"⟩, ⟨"email", "ne", GoValue.str "b"⟩],
        ""⟩ mockRegistry mockPredBuilder mockPredBuilder2 "email = a"
      ["email = a", "email != b"]).2 (by rfl) (by decide)).trans (by rfl)

/-- Witness for C6 on closed inputs: Eq on a boolean value fails with the
string type mismatch, Eq on a string delegates to the atomic constructor. -/
theorem claim_C6_witness :
    (stringFilterBuilder mockStringPreds mockComb false).Eq
        (GoValue.bool true) = .error (GoError.typeMismatch "string") ∧
    (stringFilterBuilder mockStringPreds mockComb false).Eq
        (GoValue.str "a") = .ok "email = a" := by
  constructor
  · exact (claim_C6 mockStringPreds mockComb false (GoValue.bool true) "a"
      [] []).2.2.1 (by rfl)
  · exact ((claim_C6 mockStringPreds mockComb false (GoValue.bool true) "a"
      [] []).2.1).trans (by rfl)

/-- Witness for C8 on closed inputs: a group naming only the unregistered
field ghost leaves the query unchanged. -/
theorem claim_C8_witness :
    ApplyStructuredFilters "q" mockCfg
        ⟨[⟨"ghost", "eq", GoValue.str "b"⟩], "and"⟩ mockRegistry
        mockPredBuilder = .ok "q" :=
  (claim_C8 "q" mockCfg mockRegistry mockPredBuilder "and"
    ⟨[⟨"ghost", "eq", GoValue.str "b"⟩], "and"⟩).2 (by rfl)

/-- Witness for C9 on a closed input: the unrecognized operator tag
frobnicate dispatches to Eq. -/
theorem claim_C9_witness :
    buildPredicate (stringFilterBuilder mockStringPreds mockComb false)
        ⟨"email", "frobnicate", GoValue.str "x"⟩ = .ok "email = x" :=
  ((claim_C9 (stringFilterBuilder mockStringPreds mockComb false) "email"
      (GoValue.str "x") "frobnicate").1 (by decide)).trans (by rfl)

/-- Witness for C10 on closed inputs: a contains filter with a boolean value
is passed the empty string and still succeeds on the string builder. -/
theorem claim_C10_witness :
    buildPredicate (stringFilterBuilder mockStringPreds mockComb false)
        ⟨"email", "contains", GoValue.bool true⟩ =
      .ok "email contains " ∧
    toString (GoValue.bool true) = "" := by
  constructor
  · exact ((claim_C10 (stringFilterBuilder mockStringPreds mockComb false)
      mockStringPreds mockBoolPreds mockTimePreds mockComb mockParsers
      false false (GoValue.bool true) "s" "t" "email").1).trans (by rfl)
  · exact (claim_C10 (stringFilterBuilder mockStringPreds mockComb false)
      mockStringPreds mockBoolPreds mockTimePreds mockComb mockParsers
      false false (GoValue.bool true) "s" "t"
      "email").2.2.2.2.2.1 (by rfl)

end Dewey
